import Mathlib

/-!
Verification of the numeric core of the Option-Zero/world-time repository.

The repository renders a world map of UTC time-zone bands. Its numeric
core consists of the OKLCH to sRGB color conversion and some small time
helpers, found in `src/app.js` as the object `ColorUtils` (which the file
defines twice, at lines 514-574 and again at lines 1764-1824), plus a
solar-terminator routine that the accompanying design document describes
but that is absent from the source tree.

The JavaScript is embedded shallowly: numbers become real numbers, the
clamped integer channels become integers, and the ambient clock and host
timezone of the `Date` API become explicit parameters.  Decimal literals
of the source are carried over verbatim; in Lean they denote the exact
rational values that the source text spells.
-/

/-- Shallow embedding of JavaScript `Math.round`: round half toward
positive infinity, i.e. the floor of `x + 1/2`. -/
noncomputable def jsRound (x : ℝ) : ℤ := ⌊x + 1 / 2⌋

/-- Shallow embedding of the JavaScript expression `Math.sign(c) || 1`:
the sign of `c`, with `1` substituted when the sign is zero. -/
noncomputable def jsSignOrOne (x : ℝ) : ℝ :=
  if x > 0 then 1 else if x < 0 then -1 else 1

/-- Shallow embedding of `Date.prototype.getHours` for a date holding
millisecond value `t`, in a host timezone whose `getTimezoneOffset` is
`tzOffsetMinutes`: the ECMAScript definition `HourFromTime(LocalTime(t))`
with `LocalTZA = -tzOffsetMinutes * 60000` and the always-nonnegative
`modulo` of the ECMAScript specification. -/
def jsGetHours (tzOffsetMinutes : ℤ) (t : ℚ) : ℤ :=
  ⌊(t - tzOffsetMinutes * 60000) / 3600000⌋ % 24

namespace ColorUtils

/-- Shallow embedding of the gamma-encoding closure `toSRGB` defined
inside `ColorUtils.oklchToRgb`, src/app.js lines 538-544 (first copy). -/
noncomputable def toSRGB (c : ℝ) : ℝ :=
  let abs := |c|
  if abs > 0.0031308 then jsSignOrOne c * (1.055 * abs ^ ((1 : ℝ) / 2.4) - 0.055)
  else 12.92 * c

/-- Shallow embedding of `ColorUtils.oklchToRgb`, src/app.js lines
517-556 (first copy), up to and including the three clamped integer
channels; the string formatting of the final return statement is in
`oklchToRgb` below. -/
noncomputable def oklchToRgbChannels (l c h : ℝ) : ℤ × ℤ × ℤ :=
  let hRad := h * Real.pi / 180
  let a := c * Real.cos hRad
  let b := c * Real.sin hRad
  let l_ := l + 0.3963377774 * a + 0.2158037573 * b
  let m_ := l - 0.1055613458 * a - 0.0638541728 * b
  let s_ := l - 0.0894841775 * a - 1.2914855480 * b
  let l3 := l_ * l_ * l_
  let m3 := m_ * m_ * m_
  let s3 := s_ * s_ * s_
  let r := 4.0767416621 * l3 - 3.3077115913 * m3 + 0.2309699292 * s3
  let g := -1.2684380046 * l3 + 2.6097574011 * m3 - 0.3413193965 * s3
  let bl := -0.0041960863 * l3 - 0.7034186147 * m3 + 1.7076147010 * s3
  let r2 := toSRGB r
  let g2 := toSRGB g
  let bl2 := toSRGB bl
  (max 0 (min 255 (jsRound (r2 * 255))),
   max 0 (min 255 (jsRound (g2 * 255))),
   max 0 (min 255 (jsRound (bl2 * 255))))

/-- Shallow embedding of the return statement of
`ColorUtils.oklchToRgb`, src/app.js line 556 (first copy): the function
returns the CSS string `rgb(r, g, b)` built from the three clamped
integer channels. -/
noncomputable def oklchToRgb (l c h : ℝ) : String :=
  let t := oklchToRgbChannels l c h
  "rgb(" ++ toString t.1 ++ ", " ++ toString t.2.1 ++ ", " ++ toString t.2.2 ++ ")"

/-- Shallow embedding of `ColorUtils.getHourInTimezone`, src/app.js
lines 560-565 (first copy).  The ambient clock and host timezone are
passed explicitly: `nowMillis` models `now.getTime()` and
`tzOffsetMinutes` models `now.getTimezoneOffset()`. -/
def getHourInTimezone (nowMillis tzOffsetMinutes : ℤ) (offset : ℚ) : ℤ :=
  let utc : ℚ := nowMillis + tzOffsetMinutes * 60000
  let tzTime : ℚ := utc + offset * 3600000
  jsGetHours tzOffsetMinutes tzTime

/-- Shallow embedding of `ColorUtils.getTimeOfDay`, src/app.js lines
569-573 (first copy). -/
def getTimeOfDay (hour : ℤ) : String :=
  if 6 ≤ hour ∧ hour < 12 then "morning"
  else if 12 ≤ hour ∧ hour < 18 then "afternoon"
  else if 18 ≤ hour ∧ hour < 22 then "evening"
  else "night"

end ColorUtils

namespace ColorUtilsSecond

/-- Shallow embedding of the gamma-encoding closure `toSRGB` defined
inside `ColorUtils.oklchToRgb`, src/app.js lines 1788-1794 (second copy
of the `ColorUtils` object literal). -/
noncomputable def toSRGB (c : ℝ) : ℝ :=
  let abs := |c|
  if abs > 0.0031308 then jsSignOrOne c * (1.055 * abs ^ ((1 : ℝ) / 2.4) - 0.055)
  else 12.92 * c

/-- Shallow embedding of `ColorUtils.oklchToRgb`, src/app.js lines
1767-1806 (second copy), up to and including the three clamped integer
channels. -/
noncomputable def oklchToRgbChannels (l c h : ℝ) : ℤ × ℤ × ℤ :=
  let hRad := h * Real.pi / 180
  let a := c * Real.cos hRad
  let b := c * Real.sin hRad
  let l_ := l + 0.3963377774 * a + 0.2158037573 * b
  let m_ := l - 0.1055613458 * a - 0.0638541728 * b
  let s_ := l - 0.0894841775 * a - 1.2914855480 * b
  let l3 := l_ * l_ * l_
  let m3 := m_ * m_ * m_
  let s3 := s_ * s_ * s_
  let r := 4.0767416621 * l3 - 3.3077115913 * m3 + 0.2309699292 * s3
  let g := -1.2684380046 * l3 + 2.6097574011 * m3 - 0.3413193965 * s3
  let bl := -0.0041960863 * l3 - 0.7034186147 * m3 + 1.7076147010 * s3
  let r2 := toSRGB r
  let g2 := toSRGB g
  let bl2 := toSRGB bl
  (max 0 (min 255 (jsRound (r2 * 255))),
   max 0 (min 255 (jsRound (g2 * 255))),
   max 0 (min 255 (jsRound (bl2 * 255))))

/-- Shallow embedding of the return statement of
`ColorUtils.oklchToRgb`, src/app.js line 1806 (second copy). -/
noncomputable def oklchToRgb (l c h : ℝ) : String :=
  let t := oklchToRgbChannels l c h
  "rgb(" ++ toString t.1 ++ ", " ++ toString t.2.1 ++ ", " ++ toString t.2.2 ++ ")"

/-- Shallow embedding of `ColorUtils.getHourInTimezone`, src/app.js
lines 1810-1815 (second copy). -/
def getHourInTimezone (nowMillis tzOffsetMinutes : ℤ) (offset : ℚ) : ℤ :=
  let utc : ℚ := nowMillis + tzOffsetMinutes * 60000
  let tzTime : ℚ := utc + offset * 3600000
  jsGetHours tzOffsetMinutes tzTime

/-- Shallow embedding of `ColorUtils.getTimeOfDay`, src/app.js lines
1819-1823 (second copy). -/
def getTimeOfDay (hour : ℤ) : String :=
  if 6 ≤ hour ∧ hour < 12 then "morning"
  else if 12 ≤ hour ∧ hour < 18 then "afternoon"
  else if 18 ≤ hour ∧ hour < 22 then "evening"
  else "night"

end ColorUtilsSecond

/-- Output record of the specified `OklchToSrgb` operation: a 3-channel
record of integers, as the specification interface section describes. -/
structure Rgb where
  r : ℤ
  g : ℤ
  b : ℤ

/-- Rounding written exactly as the specification words allow it: round
half away from zero. -/
noncomputable def roundHalfAway (x : ℝ) : ℤ :=
  if x < 0 then -⌊-x + 1 / 2⌋ else ⌊x + 1 / 2⌋

/-- Gamma encoding written from the specification words of step 5 of
section 4.1: if the magnitude exceeds the linear threshold, apply the
power curve with the sign of the channel, else the linear segment. -/
noncomputable def specGamma (x : ℝ) : ℝ :=
  if |x| > 0.0031308 then Real.sign x * (1.055 * |x| ^ ((1 : ℝ) / 2.4) - 0.055)
  else 12.92 * x

/-- The `OklchToSrgb` operation written from the specification words of
section 4.1, steps 1 through 6, with clamping applied after rounding.
This is the spec-side definition of the refinement claim; it is compared
against the source-side embedding `ColorUtils.oklchToRgbChannels`. -/
noncomputable def OklchToSrgb (l c h : ℝ) : Rgb :=
  let a := c * Real.cos (h * Real.pi / 180)
  let b := c * Real.sin (h * Real.pi / 180)
  let lp := l + 0.3963377774 * a + 0.2158037573 * b
  let mp := l - 0.1055613458 * a - 0.0638541728 * b
  let sp := l - 0.0894841775 * a - 1.2914855480 * b
  let lcube := lp ^ 3
  let mcube := mp ^ 3
  let scube := sp ^ 3
  let r := 4.0767416621 * lcube - 3.3077115913 * mcube + 0.2309699292 * scube
  let g := -1.2684380046 * lcube + 2.6097574011 * mcube - 0.3413193965 * scube
  let b2 := -0.0041960863 * lcube - 0.7034186147 * mcube + 1.7076147010 * scube
  ⟨max 0 (min 255 (roundHalfAway (specGamma r * 255))),
   max 0 (min 255 (roundHalfAway (specGamma g * 255))),
   max 0 (min 255 (roundHalfAway (specGamma b2 * 255)))⟩

/-- A terminator point, a longitude and latitude pair in degrees, as in
section 3 of the specification. -/
structure TerminatorPoint where
  lon : ℝ
  lat : ℝ

/-- Modelled from the spec: the solar-terminator routine is absent from
the source tree, so its declination formula is taken from section 4.2
step 2: `δ = -23.44 · cos(360/365 · (dayOfYear + 10) · π/180)` degrees. -/
noncomputable def solarDeclination (dayOfYear : ℤ) : ℝ :=
  -23.44 * Real.cos (360 / 365 * ((dayOfYear : ℝ) + 10) * Real.pi / 180)

/-- Modelled from the spec: solar sub-point longitude of section 4.2
step 3, `λ_sun = (UTC_hours_as_fraction - 12) · 15` degrees. -/
noncomputable def subsolarLongitude (utcHours : ℝ) : ℝ := (utcHours - 12) * 15

/-- Modelled from the spec: the cosine of the hour angle at declination
`d` and integer latitude `φ`, section 4.2 step 4:
`cosH = -tan(φ·π/180) · tan(δ·π/180)`. -/
noncomputable def terminatorCosH (d : ℝ) (φ : ℤ) : ℝ :=
  -Real.tan ((φ : ℝ) * Real.pi / 180) * Real.tan (d * Real.pi / 180)

/-- Modelled from the spec: the hour angle in degrees,
`H = acos(cosH) · 180/π`, section 4.2 step 4. -/
noncomputable def terminatorHourAngle (d : ℝ) (φ : ℤ) : ℝ :=
  Real.arccos (terminatorCosH d φ) * 180 / Real.pi

/-- Modelled from the spec: the points emitted for one integer latitude
`φ`, section 4.2 step 4: when `|cosH| ≤ 1`, two points at longitudes
`λ_sun + H` and `λ_sun - H` at latitude `φ`; when `|cosH| > 1`, no
point (the source skips polar day and night latitudes). -/
noncomputable def terminatorPointsAt (lamSun d : ℝ) (φ : ℤ) : List TerminatorPoint :=
  if |terminatorCosH d φ| ≤ 1 then
    [⟨lamSun + terminatorHourAngle d φ, (φ : ℝ)⟩,
     ⟨lamSun - terminatorHourAngle d φ, (φ : ℝ)⟩]
  else []

/-- Modelled from the spec: the integer latitudes the terminator loop
scans, -90 to 90 inclusive in ascending order, section 4.2 step 4. -/
def latitudeScan : List ℤ := (List.range 181).map fun i : ℕ => (i : ℤ) - 90

/-- Modelled from the spec: the full terminator curve for a given
sub-point longitude and declination, scanning integer latitudes from
-90 to 90 inclusive in ascending order, section 4.2 steps 4 and 5. -/
noncomputable def terminatorCurve (lamSun d : ℝ) : List TerminatorPoint :=
  (latitudeScan.map (terminatorPointsAt lamSun d)).flatten

/-- Modelled from the spec: the `SolarTerminator` operation of section
4.2.  The timestamp input is represented by the two quantities the
algorithm reads from it, the UTC day of year and the UTC hours
fraction. -/
noncomputable def SolarTerminator (dayOfYear : ℤ) (utcHours : ℝ) : List TerminatorPoint :=
  terminatorCurve (subsolarLongitude utcHours) (solarDeclination dayOfYear)

/-- Dynamic shape of a JavaScript return value, used to state what kind
of value `oklchToRgb` returns: a string, a 3-field record of integers,
or an array of integers. -/
inductive JsValue where
  | str (s : String)
  | obj (r g b : ℤ)
  | arr (cs : List ℤ)

/-- Whether a JavaScript value is a 3-channel struct or array (rather
than, say, a string). -/
def JsValue.isChannelStruct : JsValue → Bool
  | .str _ => false
  | .obj _ _ _ => true
  | .arr _ => true

/-- The JavaScript value that `ColorUtils.oklchToRgb` returns, with its
dynamic shape made explicit: the source returns a formatted string. -/
noncomputable def oklchToRgbValue (l c h : ℝ) : JsValue :=
  JsValue.str (ColorUtils.oklchToRgb l c h)

/-- Clamping to [0,255] after rounding erases the difference between
JavaScript rounding (half toward positive infinity) and rounding half
away from zero: the two conventions differ only at negative half-integer
inputs, which clamp to 0 either way. -/
theorem clamp_roundHalfAway (x : ℝ) :
    max 0 (min 255 (roundHalfAway x)) = max 0 (min 255 (jsRound x)) := by
  unfold roundHalfAway jsRound
  rcases lt_or_le x 0 with hx | hx
  · rw [if_pos hx]
    have h1 : ⌊x + 1 / 2⌋ < 1 := by
      apply Int.floor_lt.2
      push_cast
      linarith
    have h2 : 0 ≤ ⌊-x + 1 / 2⌋ := Int.floor_nonneg.2 (by linarith)
    omega
  · rw [if_neg (not_lt.2 hx)]

/-- The gamma step written from the specification words agrees with the
embedded source closure everywhere. -/
theorem specGamma_eq_toSRGB (x : ℝ) : specGamma x = ColorUtils.toSRGB x := by
  simp only [specGamma, ColorUtils.toSRGB, jsSignOrOne]
  by_cases hx : |x| > 0.0031308
  · rw [if_pos hx, if_pos hx]
    have hx0 : x ≠ 0 := by
      intro h0
      rw [h0, abs_zero] at hx
      norm_num at hx
    rcases lt_or_gt_of_ne hx0 with hneg | hpos
    · rw [Real.sign_of_neg hneg, if_neg (by linarith), if_pos hneg]
    · rw [Real.sign_of_pos hpos, if_pos hpos]
  · rw [if_neg hx, if_neg hx]

/-- C1: for every input (L, C, H), the source function computes its
result exactly by the algorithm of the specification: OKLab conversion,
cone responses, cubing, the fixed 3x3 matrix, gamma encoding, scaling by
255, rounding, and clamping to [0,255] applied after rounding. -/
theorem oklchToRgb_matches_spec_algorithm (l c h : ℝ) :
    OklchToSrgb l c h =
      ⟨(ColorUtils.oklchToRgbChannels l c h).1,
       (ColorUtils.oklchToRgbChannels l c h).2.1,
       (ColorUtils.oklchToRgbChannels l c h).2.2⟩ := by
  simp only [OklchToSrgb, ColorUtils.oklchToRgbChannels, pow_three',
    specGamma_eq_toSRGB, clamp_roundHalfAway]

/-- At chroma zero the OKLab a and b components vanish, each coefficient
row of the LMS-to-RGB matrix sums to exactly one, and all three channels
collapse to the same gray value determined by the lightness alone. -/
theorem oklchToRgbChannels_gray (l h : ℝ) :
    ColorUtils.oklchToRgbChannels l 0 h =
      (max 0 (min 255 (jsRound (ColorUtils.toSRGB (l * l * l) * 255))),
       max 0 (min 255 (jsRound (ColorUtils.toSRGB (l * l * l) * 255))),
       max 0 (min 255 (jsRound (ColorUtils.toSRGB (l * l * l) * 255)))) := by
  simp only [ColorUtils.oklchToRgbChannels, zero_mul, mul_zero, add_zero, sub_zero]
  have e1 : (4.0767416621 : ℝ) * (l * l * l) - 3.3077115913 * (l * l * l)
      + 0.2309699292 * (l * l * l) = l * l * l := by ring
  have e2 : (-1.2684380046 : ℝ) * (l * l * l) + 2.6097574011 * (l * l * l)
      - 0.3413193965 * (l * l * l) = l * l * l := by ring
  have e3 : (-0.0041960863 : ℝ) * (l * l * l) - 0.7034186147 * (l * l * l)
      + 1.7076147010 * (l * l * l) = l * l * l := by ring
  rw [e1, e2, e3]

/-- C3: for every input, including values outside the documented ranges,
the conversion is a total function (no error branch in the model) and
each output channel is an integer lying in [0,255]. -/
theorem oklchToRgbChannels_in_range (l c h : ℝ) :
    0 ≤ (ColorUtils.oklchToRgbChannels l c h).1 ∧
      (ColorUtils.oklchToRgbChannels l c h).1 ≤ 255 ∧
    0 ≤ (ColorUtils.oklchToRgbChannels l c h).2.1 ∧
      (ColorUtils.oklchToRgbChannels l c h).2.1 ≤ 255 ∧
    0 ≤ (ColorUtils.oklchToRgbChannels l c h).2.2 ∧
      (ColorUtils.oklchToRgbChannels l c h).2.2 ≤ 255 := by
  simp only [ColorUtils.oklchToRgbChannels]
  refine ⟨?_, ?_, ?_, ?_, ?_, ?_⟩ <;> omega

/-- C5: lightness 0 at chroma 0 yields black (0,0,0) and lightness 1 at
chroma 0 yields white (255,255,255), for every hue. -/
theorem oklchToRgbChannels_black_white (h : ℝ) :
    ColorUtils.oklchToRgbChannels 0 0 h = (0, 0, 0) ∧
    ColorUtils.oklchToRgbChannels 1 0 h = (255, 255, 255) := by
  constructor
  · rw [oklchToRgbChannels_gray]
    have hz : ColorUtils.toSRGB ((0 : ℝ) * 0 * 0) = 0 := by
      simp only [ColorUtils.toSRGB, mul_zero, zero_mul, abs_zero]
      rw [if_neg (by norm_num)]
    rw [hz]
    have hr : jsRound ((0 : ℝ) * 255) = 0 := by
      simp only [jsRound, zero_mul, zero_add]
      norm_num [Int.floor_eq_iff]
    rw [hr]
    norm_num
  · rw [oklchToRgbChannels_gray]
    have ho : ColorUtils.toSRGB ((1 : ℝ) * 1 * 1) = 1 := by
      simp only [ColorUtils.toSRGB, mul_one, abs_one]
      rw [if_pos (by norm_num)]
      rw [Real.one_rpow]
      simp only [jsSignOrOne]
      rw [if_pos (by norm_num)]
      ring
    rw [ho]
    have hr : jsRound ((1 : ℝ) * 255) = 255 := by
      simp only [jsRound, one_mul]
      norm_num [Int.floor_eq_iff]
    rw [hr]
    norm_num

/-- C7: at chroma 0 the hue is irrelevant, so two conversions differing
only in hue return the same string; in particular the conversion of
(0.5, 0, 0) yields a gray triplet with equal channels. -/
theorem oklchToRgb_chroma_zero_gray :
    (∀ l h1 h2 : ℝ, ColorUtils.oklchToRgb l 0 h1 = ColorUtils.oklchToRgb l 0 h2) ∧
    ((ColorUtils.oklchToRgbChannels 0.5 0 0).1 = (ColorUtils.oklchToRgbChannels 0.5 0 0).2.1 ∧
     (ColorUtils.oklchToRgbChannels 0.5 0 0).2.1 = (ColorUtils.oklchToRgbChannels 0.5 0 0).2.2) := by
  constructor
  · intro l h1 h2
    simp only [ColorUtils.oklchToRgb]
    rw [oklchToRgbChannels_gray, oklchToRgbChannels_gray]
  · rw [oklchToRgbChannels_gray (0.5 : ℝ) 0]
    exact ⟨rfl, rfl⟩

/-- C8: the conversion is deterministic, a pure function of its three
arguments alone; equal inputs give identical output. -/
theorem oklchToRgb_deterministic (l c h l2 c2 h2 : ℝ)
    (hl : l = l2) (hc : c = c2) (hh : h = h2) :
    ColorUtils.oklchToRgb l c h = ColorUtils.oklchToRgb l2 c2 h2 := by
  subst hl
  subst hc
  subst hh
  rfl

/-- Witness for C8 at the concrete input (0, 0, 0). -/
theorem oklchToRgb_deterministic_witness :
    ColorUtils.oklchToRgb 0 0 0 = ColorUtils.oklchToRgb 0 0 0 :=
  oklchToRgb_deterministic 0 0 0 0 0 0 rfl rfl rfl

/-- C9: the two textual copies of the `ColorUtils` object in src/app.js
(lines 514-574 and lines 1764-1824) define extensionally equal
functions: each of the three members computes the same result as its
counterpart on every input. -/
theorem colorUtils_copies_agree :
    (∀ l c h : ℝ, ColorUtils.oklchToRgb l c h = ColorUtilsSecond.oklchToRgb l c h) ∧
    (∀ (nowMillis tzOffsetMinutes : ℤ) (offset : ℚ),
      ColorUtils.getHourInTimezone nowMillis tzOffsetMinutes offset =
        ColorUtilsSecond.getHourInTimezone nowMillis tzOffsetMinutes offset) ∧
    (∀ hour : ℤ, ColorUtils.getTimeOfDay hour = ColorUtilsSecond.getTimeOfDay hour) :=
  ⟨fun _ _ _ => rfl, fun _ _ _ => rfl, fun _ => rfl⟩

/-- C10: `getTimeOfDay` is total and partitions the integers: it returns
morning exactly on [6,12), afternoon exactly on [12,18), evening exactly
on [18,22), and night on everything else, including hours 22-23, 0-5 and
values outside [0,23]. -/
theorem getTimeOfDay_partition (hour : ℤ) :
    (ColorUtils.getTimeOfDay hour = "morning" ↔ 6 ≤ hour ∧ hour < 12) ∧
    (ColorUtils.getTimeOfDay hour = "afternoon" ↔ 12 ≤ hour ∧ hour < 18) ∧
    (ColorUtils.getTimeOfDay hour = "evening" ↔ 18 ≤ hour ∧ hour < 22) ∧
    (ColorUtils.getTimeOfDay hour = "night" ↔ (hour < 6 ∨ 22 ≤ hour)) := by
  unfold ColorUtils.getTimeOfDay
  split_ifs with h1 h2 h3 <;> refine ⟨?_, ?_, ?_, ?_⟩ <;> simp_all <;> omega

/-- C4 counterexample: at the concrete input (0, 0, 0) the value that
`oklchToRgb` returns is not a 3-channel struct or array; it is a
formatted string. -/
theorem oklchToRgbValue_not_struct :
    (oklchToRgbValue 0 0 0).isChannelStruct = false := rfl

/-- C4 amended: `oklchToRgb` returns the CSS color string rgb(r, g, b)
whose three embedded decimal integers are the computed clamped channel
values. -/
theorem oklchToRgb_returns_css_string (l c h : ℝ) :
    oklchToRgbValue l c h =
      JsValue.str ("rgb(" ++ toString (ColorUtils.oklchToRgbChannels l c h).1 ++ ", " ++
        toString (ColorUtils.oklchToRgbChannels l c h).2.1 ++ ", " ++
        toString (ColorUtils.oklchToRgbChannels l c h).2.2 ++ ")") := rfl

/-- Membership in the per-latitude emission: a point belongs to it
exactly when the cosine bound holds, its latitude is the scanned one,
and its longitude is the sub-point longitude plus or minus the hour
angle. -/
theorem mem_terminatorPointsAt_iff {lamSun d : ℝ} {φ : ℤ} {p : TerminatorPoint} :
    p ∈ terminatorPointsAt lamSun d φ ↔
      |terminatorCosH d φ| ≤ 1 ∧ p.lat = (φ : ℝ) ∧
      (p.lon = lamSun + terminatorHourAngle d φ ∨
       p.lon = lamSun - terminatorHourAngle d φ) := by
  rcases p with ⟨lon, lat⟩
  simp only [terminatorPointsAt]
  by_cases hc : |terminatorCosH d φ| ≤ 1
  · rw [if_pos hc]
    simp only [List.mem_cons, List.not_mem_nil, or_false, TerminatorPoint.mk.injEq]
    constructor
    · rintro (⟨h1, h2⟩ | ⟨h1, h2⟩)
      · exact ⟨hc, h2, Or.inl h1⟩
      · exact ⟨hc, h2, Or.inr h1⟩
    · rintro ⟨-, h2, h1 | h1⟩
      · exact Or.inl ⟨h1, h2⟩
      · exact Or.inr ⟨h1, h2⟩
  · rw [if_neg hc]
    simp [hc]

/-- Every point emitted for latitude `φ` carries latitude `φ`. -/
theorem lat_of_mem_terminatorPointsAt {lamSun d : ℝ} {φ : ℤ} {p : TerminatorPoint}
    (hp : p ∈ terminatorPointsAt lamSun d φ) : p.lat = (φ : ℝ) :=
  (mem_terminatorPointsAt_iff.1 hp).2.1

/-- The scanned latitudes are exactly the integers of [-90, 90]. -/
theorem mem_latitudeScan (φ : ℤ) : φ ∈ latitudeScan ↔ -90 ≤ φ ∧ φ ≤ 90 := by
  unfold latitudeScan
  rw [List.mem_map]
  constructor
  · rintro ⟨i, hi, rfl⟩
    rw [List.mem_range] at hi
    omega
  · intro h
    refine ⟨(φ + 90).toNat, ?_, ?_⟩
    · rw [List.mem_range]
      omega
    · omega

/-- The scanned latitudes are strictly increasing. -/
theorem latitudeScan_pairwise : latitudeScan.Pairwise (· < ·) := by
  unfold latitudeScan
  exact (List.pairwise_lt_range 181).map _ (fun a b hab => by omega)

/-- Membership in the full curve: a point belongs to it exactly when
some integer latitude between -90 and 90 inclusive emits it. -/
theorem mem_terminatorCurve_iff {lamSun d : ℝ} {p : TerminatorPoint} :
    p ∈ terminatorCurve lamSun d ↔
      ∃ φ : ℤ, -90 ≤ φ ∧ φ ≤ 90 ∧ p ∈ terminatorPointsAt lamSun d φ := by
  unfold terminatorCurve
  rw [List.mem_flatten]
  constructor
  · rintro ⟨L, hL, hp⟩
    rw [List.mem_map] at hL
    obtain ⟨φ, hφ, rfl⟩ := hL
    rw [mem_latitudeScan] at hφ
    exact ⟨φ, hφ.1, hφ.2, hp⟩
  · rintro ⟨φ, h1, h2, hp⟩
    exact ⟨terminatorPointsAt lamSun d φ,
      List.mem_map_of_mem _ ((mem_latitudeScan φ).2 ⟨h1, h2⟩), hp⟩

/-- The curve is emitted in ascending latitude order. -/
theorem terminatorCurve_sorted (lamSun d : ℝ) :
    List.Pairwise (fun p q : TerminatorPoint => p.lat ≤ q.lat)
      (terminatorCurve lamSun d) := by
  unfold terminatorCurve
  rw [List.pairwise_flatten]
  refine ⟨?_, ?_⟩
  · intro L hL
    rw [List.mem_map] at hL
    obtain ⟨φ, -, rfl⟩ := hL
    simp only [terminatorPointsAt]
    split
    · simp
    · exact List.Pairwise.nil
  · refine latitudeScan_pairwise.map _ (fun a b hab => ?_)
    intro x hx y hy
    rw [lat_of_mem_terminatorPointsAt hx, lat_of_mem_terminatorPointsAt hy]
    exact_mod_cast le_of_lt hab

/-- C2: the terminator operation scans each integer latitude from -90 to
90 inclusive; a point is returned exactly when the cosine of the hour
angle at that latitude has magnitude at most one, in which case the two
points at longitudes lambda_sun plus H and lambda_sun minus H at that
latitude appear, and latitudes with magnitude above one contribute
nothing; the returned sequence is sorted by latitude ascending. -/
theorem solarTerminator_spec (dayOfYear : ℤ) (utcHours : ℝ) :
    List.Pairwise (fun p q : TerminatorPoint => p.lat ≤ q.lat)
      (SolarTerminator dayOfYear utcHours) ∧
    ∀ p : TerminatorPoint,
      p ∈ SolarTerminator dayOfYear utcHours ↔
        ∃ φ : ℤ, -90 ≤ φ ∧ φ ≤ 90 ∧
          |terminatorCosH (solarDeclination dayOfYear) φ| ≤ 1 ∧
          p.lat = (φ : ℝ) ∧
          (p.lon = subsolarLongitude utcHours +
              terminatorHourAngle (solarDeclination dayOfYear) φ ∨
           p.lon = subsolarLongitude utcHours -
              terminatorHourAngle (solarDeclination dayOfYear) φ) := by
  unfold SolarTerminator
  constructor
  · exact terminatorCurve_sorted _ _
  · intro p
    rw [mem_terminatorCurve_iff]
    constructor
    · rintro ⟨φ, h1, h2, hp⟩
      rw [mem_terminatorPointsAt_iff] at hp
      exact ⟨φ, h1, h2, hp.1, hp.2.1, hp.2.2⟩
    · rintro ⟨φ, h1, h2, hc, hlat, hlon⟩
      exact ⟨φ, h1, h2, mem_terminatorPointsAt_iff.2 ⟨hc, hlat, hlon⟩⟩

/-- At declination zero the cosine of the hour angle vanishes at every
latitude. -/
theorem terminatorCosH_zero_declination (φ : ℤ) : terminatorCosH 0 φ = 0 := by
  simp [terminatorCosH, Real.tan_zero]

/-- At declination zero the hour angle is exactly 90 degrees at every
latitude. -/
theorem terminatorHourAngle_zero_declination (φ : ℤ) :
    terminatorHourAngle 0 φ = 90 := by
  rw [terminatorHourAngle, terminatorCosH_zero_declination, Real.arccos_zero]
  have hpi := Real.pi_ne_zero
  field_simp
  ring

/-- C6: at the equinox declination the hour angle is 90 degrees for
every latitude strictly between -90 and 90, and every point of the
curve lies at longitude lambda_sun plus 90 or lambda_sun minus 90. -/
theorem solarTerminator_equinox (lamSun : ℝ) :
    (∀ φ : ℤ, -90 < φ → φ < 90 → terminatorHourAngle 0 φ = 90) ∧
    List.Forall (fun p : TerminatorPoint =>
      p.lon = lamSun + 90 ∨ p.lon = lamSun - 90) (terminatorCurve lamSun 0) := by
  constructor
  · intro φ _ _
    exact terminatorHourAngle_zero_declination φ
  · rw [List.forall_iff_forall_mem]
    intro p hp
    rw [mem_terminatorCurve_iff] at hp
    obtain ⟨φ, -, -, hp⟩ := hp
    rw [mem_terminatorPointsAt_iff] at hp
    rcases hp.2.2 with h | h
    · left
      rw [h, terminatorHourAngle_zero_declination]
    · right
      rw [h, terminatorHourAngle_zero_declination]

/-- Witness for C6 at latitude 0. -/
theorem solarTerminator_equinox_witness : terminatorHourAngle 0 0 = 90 :=
  (solarTerminator_equinox 0).1 0 (by decide) (by decide)
